import Mathlib

/-!
# Verification of `unionheraldpress` (src/app.py)

Shallow embedding of the article-creation web application in `src/app.py`:
a user creates an "article" from a headline and two uploaded images (an
Open-Graph preview image and a "troll" payload image); the app uploads both
images to an object store under keys derived from a fresh 10-character id,
persists a record in a JSON file, and serves a view page that resolves both
keys to public URLs.

Modelling conventions:
* Python strings are Lean `String`s; `str.lower` / `str.strip` are modelled by
  the character-list functions `py_lower` / `py_strip` below (equivalent to
  `String.toLower` / `String.trim`, but defined by structural recursion so that
  concrete instances reduce inside the kernel).
* The JSON store file is modelled at two levels.  `RawFile`/`load_articles_file`
  model `load_articles` on every possible file state: missing; bytes that are
  not valid UTF-8 (the `UnicodeDecodeError` raised inside `json.load` is not a
  `json.JSONDecodeError`, so it escapes `load_articles`); UTF-8 text that is
  not valid JSON (`json.JSONDecodeError`, caught, degraded to `{}`); and valid
  JSON of arbitrary shape, returned as-is whether or not it is a mapping.
  `FileState`/`load_articles` restrict to the states from which the request
  handlers can proceed — a parsed mapping, or the degraded-to-`{}` states —
  and `load_articles_file_coherent` relates the two; on the remaining raw
  states both handlers raise (HTTP 500) before any store write.  A parsed JSON
  object is an association list; article records are association lists of
  string fields (so legacy records with other field sets are representable).
* The random id `uuid.uuid4().hex[:10]` is passed to `create_article` as an
  explicit argument `freshId`.
* Side effects of a create request (uploads performed, store file written) are
  returned explicitly in a `CreateOutcome`.
-/

namespace UnionHeraldPress

/-- Python `str.lower()`: lowercase every character. -/
def py_lower (s : String) : String :=
  String.mk (s.data.map Char.toLower)

/-- Python `str.strip()`: remove leading and trailing whitespace. -/
def py_strip (s : String) : String :=
  String.mk (((s.data.dropWhile Char.isWhitespace).reverse.dropWhile
    Char.isWhitespace).reverse)

/-- The characters after the final `'.'` of a character list: models
`filename.rsplit(".", 1)[1]` (Python), which `src/app.py` only evaluates on
filenames already known to contain a `'.'`. -/
def afterLastDot (l : List Char) : List Char :=
  (l.reverse.takeWhile (fun c => c != '.')).reverse

/-- `filename.rsplit(".", 1)[1].lower()` as computed in `create_article`
(src/app.py lines 147-148). -/
def lower_ext (filename : String) : String :=
  py_lower (String.mk (afterLastDot filename.data))

/-- `allowed_file` (src/app.py lines 78-82): a filename is accepted iff it
contains a `'.'` and the lowercased segment after the final `'.'` is one of
the five allowed image extensions. -/
def allowed_file (filename : String) : Bool :=
  if '.' ∈ filename.data then
    decide (lower_ext filename ∈ (["png", "jpg", "jpeg", "gif", "webp"] : List String))
  else
    false

/-- Python `key.lstrip('/')`: remove every leading `'/'`. -/
def lstrip_slash (s : String) : String :=
  String.mk (s.data.dropWhile (fun c => c = '/'))

/-- Python `value.rstrip('/')` (applied to `R2_PUBLIC_BASE_URL` at startup,
src/app.py line 43): remove every trailing `'/'`. -/
def rstrip_slash (s : String) : String :=
  String.mk ((s.data.reverse.dropWhile (fun c => c = '/')).reverse)

/-- `r2_url_for` (src/app.py lines 101-105): the public URL of an object key is
the configured public base URL (already `rstrip`ped of `'/'` at startup),
a single `'/'`, and the key stripped of leading `'/'`.  The base URL is a
parameter here because it comes from the environment. -/
def r2_url_for (publicBase : String) (key : String) : String :=
  publicBase ++ "/" ++ lstrip_slash key

/-- An article record as stored in the JSON file: an association list of
string-valued fields (`id`, `headline`, `og_key`, `troll_key` for
current-scheme records; legacy records may carry other fields). -/
abbrev ArticleRecord := List (String × String)

/-- The persisted store: a JSON object mapping article ids to records,
modelled as an association list. -/
abbrev Store := List (String × ArticleRecord)

/-- A JSON value, as `json.load` may return (numbers idealized to `Int`;
no claim here depends on numeric values). -/
inductive Json where
  | null : Json
  | bool : Bool → Json
  | num : Int → Json
  | str : String → Json
  | arr : List Json → Json
  | obj : List (String × Json) → Json
deriving Repr

/-- The raw state of the backing file `instance/articles.json`, distinguishing
every case `load_articles` (src/app.py lines 63-70) can encounter: the file is
absent; it holds bytes that are not valid UTF-8 (reading them inside
`json.load` raises `UnicodeDecodeError`); it holds UTF-8 text that is not
valid JSON (`json.JSONDecodeError`); or it holds valid JSON parsing to `j`. -/
inductive RawFile where
  | missing : RawFile
  | notUtf8 : RawFile
  | notJson : RawFile
  | json : Json → RawFile

/-- What a call to `load_articles` does: either an exception escapes it, or it
returns a JSON value. -/
inductive LoadResult where
  | raised : LoadResult
  | value : Json → LoadResult
deriving Repr

/-- `load_articles` (src/app.py lines 63-70) over the raw file states: an
absent file yields `{}`; a file whose bytes are not valid UTF-8 raises
`UnicodeDecodeError` inside `json.load`, which `except json.JSONDecodeError`
does not catch, so the exception escapes; UTF-8 text that is not valid JSON
raises `json.JSONDecodeError`, which is caught and degraded to `{}`; and any
valid JSON value — mapping-shaped or not — is returned exactly as parsed. -/
def load_articles_file (fc : RawFile) : LoadResult :=
  match fc with
  | .missing => .value (.obj [])
  | .notUtf8 => .raised
  | .notJson => .value (.obj [])
  | .json j => .value j

/-- The states of the backing file from which the request handlers can
proceed: absent, or present but not valid JSON (`json.JSONDecodeError`,
degraded to `{}`), or parsed into a mapping.  This is the restriction of
`RawFile` under which `load_articles` returns a mapping (see
`rawOfFileState` and `load_articles_file_coherent`); on the remaining raw
states (`notUtf8`, valid JSON of non-mapping shape) both handlers raise
before any store write. -/
inductive FileState where
  | missing : FileState
  | corrupt : FileState
  | parsed : Store → FileState

/-- `load_articles` (src/app.py lines 63-70) restricted to the `FileState`
cases: an absent file yields `{}`; a present file whose contents raise
`json.JSONDecodeError` yields `{}`; otherwise the parsed mapping is returned.
The full behaviour, including the cases this restriction cannot represent, is
`load_articles_file`. -/
def load_articles (fs : FileState) : Store :=
  match fs with
  | .missing => []
  | .corrupt => []
  | .parsed m => m

/-- The JSON value a `Store` serializes to. -/
def storeToJson (m : Store) : Json :=
  .obj (m.map (fun p => (p.1, Json.obj (p.2.map (fun q => (q.1, Json.str q.2))))))

/-- The raw file state each `FileState` stands for. -/
def rawOfFileState (fs : FileState) : RawFile :=
  match fs with
  | .missing => .missing
  | .corrupt => .notJson
  | .parsed m => .json (storeToJson m)

/-- `save_articles` (src/app.py lines 73-75): overwrite the backing file with
the serialized mapping; afterwards the file parses back to that mapping. -/
def save_articles (data : Store) : FileState :=
  .parsed data

/-- A Werkzeug `FileStorage` as far as src/app.py consumes it: a declared
filename, an optional declared mimetype, and the byte content of its stream. -/
structure FileUpload where
  filename : String
  mimetype : Option String
  content : List Nat
deriving Repr, DecidableEq

/-- One call to `upload_to_r2` as observed by the object store: the object
key, the full byte content and the content type it was stored with. -/
structure UploadCall where
  key : String
  content : List Nat
  contentType : String
deriving Repr, DecidableEq

/-- `upload_to_r2` (src/app.py lines 85-98): rewind the stream and upload the
full content under `key`, with the declared mimetype, defaulting to
`application/octet-stream` when no mimetype was declared. -/
def upload_to_r2 (f : FileUpload) (key : String) : UploadCall :=
  { key := key
    content := f.content
    contentType := f.mimetype.getD "application/octet-stream" }

/-- Python dict assignment `d[k] = v` on an association list: if the key is
already bound, rebind it in place; otherwise append the new binding. -/
def dictSet (s : Store) (k : String) (v : ArticleRecord) : Store :=
  if (s.lookup k).isSome then
    s.map (fun p => if p.1 = k then (k, v) else p)
  else
    s ++ [(k, v)]

/-- Werkzeug truthiness of an optional uploaded file as the code consumes it:
the field was sent and carries a non-empty filename (`not og_file or
og_file.filename == ""` is the negation of this). -/
def filePresent (o : Option FileUpload) : Prop :=
  match o with
  | none => False
  | some f => f.filename ≠ ""

/-- The declared filename of an optional uploaded file (`""` when absent). -/
def fileNameOf (o : Option FileUpload) : String :=
  match o with
  | none => ""
  | some f => f.filename

/-- Outcome of a POST to `/`: either the create form is re-rendered with an
error message, or the client is redirected to the view page of a fresh id. -/
inductive CreateResult where
  | formError : String → CreateResult
  | redirect : String → CreateResult
deriving Repr, DecidableEq

/-- The full observable outcome of a create request: the HTTP-level result,
the uploads performed against the object store (in order), and the store
mapping written to the backing file, if any. -/
structure CreateOutcome where
  result : CreateResult
  uploads : List UploadCall
  saved : Option Store
deriving Repr, DecidableEq

/-- The POST branch of `create_article` (src/app.py lines 110-170).
`freshId` stands for `uuid.uuid4().hex[:10]`; `og_file` / `troll_file` are
`request.files.get("og_image")` / `request.files.get("troll_image")` (absent
file field gives `none`; Werkzeug's empty-filename `FileStorage` is the
`some` case with `filename = ""`, which the code treats identically). -/
def create_article (freshId : String) (headlineRaw : String)
    (og_file troll_file : Option FileUpload) (fs : FileState) : CreateOutcome :=
  let headline := py_strip headlineRaw
  if headline = "" then
    ⟨.formError "Headline is required.", [], none⟩
  else
    match og_file with
    | none => ⟨.formError "Preview image is required.", [], none⟩
    | some og =>
      if og.filename = "" then
        ⟨.formError "Preview image is required.", [], none⟩
      else
        match troll_file with
        | none => ⟨.formError "Troll article image is required.", [], none⟩
        | some troll =>
          if troll.filename = "" then
            ⟨.formError "Troll article image is required.", [], none⟩
          else if !(allowed_file og.filename) then
            ⟨.formError "Preview image must be PNG, JPG, JPEG, GIF, or WEBP.", [], none⟩
          else if !(allowed_file troll.filename) then
            ⟨.formError "Troll image must be PNG, JPG, JPEG, GIF, or WEBP.", [], none⟩
          else
            let og_ext := lower_ext og.filename
            let troll_ext := lower_ext troll.filename
            let og_key := "articles/" ++ freshId ++ "_og." ++ og_ext
            let troll_key := "articles/" ++ freshId ++ "_troll." ++ troll_ext
            let articles := load_articles fs
            let record : ArticleRecord :=
              [("id", freshId), ("headline", headline),
               ("og_key", og_key), ("troll_key", troll_key)]
            ⟨.redirect freshId,
             [upload_to_r2 og og_key, upload_to_r2 troll troll_key],
             some (dictSet articles freshId record)⟩

/-- Outcome of `GET /a/<article_id>`: 404, or the rendered page carrying the
record, the resolved preview (OG) URL and the resolved payload (troll) URL. -/
inductive ViewResult where
  | notFound : ViewResult
  | page : ArticleRecord → String → String → ViewResult
deriving Repr, DecidableEq

/-- `view_article` (src/app.py lines 173-203): load the store and look up the
id; `if not article: abort(404)` uses dict truthiness, so both a missing id
and a present-but-empty record give 404; when both current-scheme keys are
present resolve both URLs through `r2_url_for`, otherwise (legacy fallback)
both URLs are `""`. -/
def view_article (publicBase : String) (article_id : String) (fs : FileState) : ViewResult :=
  let articles := load_articles fs
  match articles.lookup article_id with
  | none => .notFound
  | some article =>
    if article = [] then
      .notFound
    else
      match article.lookup "og_key", article.lookup "troll_key" with
      | some og_key, some troll_key =>
        .page article (r2_url_for publicBase og_key) (r2_url_for publicBase troll_key)
      | _, _ => .page article "" ""

/-! ## Helper lemmas -/

theorem takeWhile_append_first_fail {p : Char → Bool} :
    ∀ (l : List Char) (y : Char) (r : List Char),
      (∀ x ∈ l, p x = true) → p y = false → (l ++ y :: r).takeWhile p = l := by
  intro l
  induction l with
  | nil =>
    intro y r _ hy
    simp [List.takeWhile_cons, hy]
  | cons a t ih =>
    intro y r hall hy
    have ha : p a = true := hall a (by simp)
    simp only [List.cons_append, List.takeWhile_cons, ha, if_true]
    rw [ih y r (fun x hx => hall x (by simp [hx])) hy]

theorem dropWhile_head_false {p : Char → Bool} :
    ∀ l : List Char, l.dropWhile p = [] ∨
      ∃ y r, l.dropWhile p = y :: r ∧ p y = false := by
  intro l
  induction l with
  | nil => left; rfl
  | cons a t ih =>
    cases hpa : p a with
    | true => simpa [List.dropWhile_cons, hpa] using ih
    | false => exact Or.inr ⟨a, t, by simp [List.dropWhile_cons, hpa], hpa⟩

theorem afterLastDot_split {l : List Char} (h : '.' ∈ l) :
    ∃ a : List Char, l = a ++ '.' :: afterLastDot l ∧ '.' ∉ afterLastDot l := by
  rcases dropWhile_head_false (p := fun c => c != '.') l.reverse with hnil | ⟨y, r, hd, hy⟩
  · exfalso
    have hr : '.' ∈ l.reverse := by simpa using h
    have := List.dropWhile_eq_nil_iff.mp hnil '.' hr
    simp at this
  · have hy' : y = '.' := by simpa using hy
    subst hy'
    have htd := List.takeWhile_append_dropWhile (p := fun c => c != '.') (l := l.reverse)
    rw [hd] at htd
    refine ⟨r.reverse, ?_, ?_⟩
    · conv_lhs => rw [← l.reverse_reverse, ← htd]
      simp [afterLastDot, List.reverse_append]
    · intro hmem
      have hx : ('.' : Char) ∈ l.reverse.takeWhile (fun c => c != '.') := by
        simpa [afterLastDot] using hmem
      have := List.mem_takeWhile_imp hx
      simp at this

theorem lookup_append_of_none {β : Type} {s : List (String × β)} {k : String}
    (h : s.lookup k = none) (t : List (String × β)) :
    (s ++ t).lookup k = t.lookup k := by
  induction s with
  | nil => simp
  | cons a es ih =>
    rw [List.cons_append, List.lookup_cons]
    rw [List.lookup_cons] at h
    cases hk : k == a.1 with
    | true => simp [hk] at h
    | false =>
      simp only [hk] at h ⊢
      exact ih h

theorem lookup_append_of_some {β : Type} {s : List (String × β)} {k : String} {v : β}
    (h : s.lookup k = some v) (t : List (String × β)) :
    (s ++ t).lookup k = some v := by
  induction s with
  | nil => simp at h
  | cons a es ih =>
    rw [List.cons_append, List.lookup_cons]
    rw [List.lookup_cons] at h
    cases hk : k == a.1 with
    | true => simpa [hk] using h
    | false =>
      simp only [hk] at h ⊢
      exact ih h

theorem lookup_map_rebind {s : Store} {k : String} {v : ArticleRecord} :
    (s.map (fun p => if p.1 = k then (k, v) else p)).lookup k =
      if (s.lookup k).isSome then some v else none := by
  induction s with
  | nil => simp
  | cons a es ih =>
    obtain ⟨a1, a2⟩ := a
    by_cases hk : a1 = k
    · subst hk
      simp [List.lookup_cons]
    · have hbeq : (k == a1) = false := beq_eq_false_iff_ne.mpr (fun h => hk h.symm)
      simp only [List.map_cons, List.lookup_cons, hbeq, if_neg hk]
      exact ih

theorem lookup_dictSet_self (s : Store) (k : String) (v : ArticleRecord) :
    (dictSet s k v).lookup k = some v := by
  rw [dictSet]
  by_cases h : (s.lookup k).isSome
  · rw [if_pos h, lookup_map_rebind, if_pos h]
  · rw [if_neg h, lookup_append_of_none (Option.not_isSome_iff_eq_none.mp h)]
    simp [List.lookup_cons]

theorem lstrip_slash_eq_self {s : String} (h : ∃ c l, s.data = c :: l ∧ c ≠ '/') :
    lstrip_slash s = s := by
  obtain ⟨c, l, hs, hc⟩ := h
  apply String.ext
  show s.data.dropWhile (fun c => c = '/') = s.data
  rw [hs]
  simp [List.dropWhile_cons, hc]

theorem lstrip_slash_articles (x y z : String) :
    lstrip_slash ("articles/" ++ x ++ y ++ z) = "articles/" ++ x ++ y ++ z := by
  apply lstrip_slash_eq_self
  refine ⟨'a', ("rticles/" ++ x ++ y ++ z).data, ?_, by decide⟩
  simp only [String.data_append]
  rfl

theorem r2_url_for_ne_empty (base key : String) : r2_url_for base key ≠ "" := by
  intro h
  have hd : (r2_url_for base key).data = [] := by rw [h]
  rw [r2_url_for, String.data_append, String.data_append] at hd
  rcases List.append_eq_nil.mp hd with ⟨hd1, _⟩
  rcases List.append_eq_nil.mp hd1 with ⟨_, hslash⟩
  exact absurd hslash (by decide)

theorem og_troll_urls_ne (base freshId e1 e2 : String) :
    r2_url_for base ("articles/" ++ freshId ++ "_og." ++ e1) ≠
      r2_url_for base ("articles/" ++ freshId ++ "_troll." ++ e2) := by
  intro h
  rw [r2_url_for, r2_url_for, lstrip_slash_articles, lstrip_slash_articles] at h
  have hd := congrArg String.data h
  simp only [String.data_append] at hd
  have hk := List.append_cancel_left hd
  simp only [List.append_assoc] at hk
  have h2 := List.append_cancel_left hk
  have h3 := List.append_cancel_left h2
  simp only [List.cons_append] at h3
  injection h3 with _ h3
  injection h3 with hc _
  exact absurd hc (by decide)

theorem create_article_success (freshId headlineRaw : String) (og troll : FileUpload)
    (fs : FileState) (hh : py_strip headlineRaw ≠ "") (hog : og.filename ≠ "")
    (htr : troll.filename ≠ "") (hao : allowed_file og.filename = true)
    (hat : allowed_file troll.filename = true) :
    create_article freshId headlineRaw (some og) (some troll) fs =
      ⟨.redirect freshId,
       [upload_to_r2 og ("articles/" ++ freshId ++ "_og." ++ lower_ext og.filename),
        upload_to_r2 troll
          ("articles/" ++ freshId ++ "_troll." ++ lower_ext troll.filename)],
       some (dictSet (load_articles fs) freshId
         [("id", freshId), ("headline", py_strip headlineRaw),
          ("og_key", "articles/" ++ freshId ++ "_og." ++ lower_ext og.filename),
          ("troll_key",
            "articles/" ++ freshId ++ "_troll." ++ lower_ext troll.filename)])⟩ := by
  simp [create_article, hh, hog, htr, hao, hat]

theorem load_articles_file_coherent (fs : FileState) :
    load_articles_file (rawOfFileState fs) = .value (storeToJson (load_articles fs)) := by
  cases fs <;> rfl

theorem view_article_parsed_found {S : Store} {id : String} {rec : ArticleRecord}
    (hl : S.lookup id = some rec) (hne : rec ≠ []) (publicBase : String) :
    view_article publicBase id (.parsed S) =
      match rec.lookup "og_key", rec.lookup "troll_key" with
      | some ok, some tk =>
        .page rec (r2_url_for publicBase ok) (r2_url_for publicBase tk)
      | _, _ => .page rec "" "" := by
  simp [view_article, load_articles, hl, hne]

/-! ## Theorems -/

/-- Counterexample for C5 as originally stated: the file content `[1,2,3]` is
valid JSON that is not an id-to-record mapping, yet `load_articles` returns it
unchanged rather than returning an empty mapping; and a file whose bytes are
not valid UTF-8 makes `load_articles` raise (`UnicodeDecodeError` is not a
`json.JSONDecodeError`), propagating the failure to the caller. -/
theorem load_articles_nonmapping_counterexample :
    load_articles_file (.json (.arr [.num 1, .num 2, .num 3])) =
      .value (.arr [.num 1, .num 2, .num 3])
    ∧ load_articles_file (.json (.arr [.num 1, .num 2, .num 3])) ≠
      .value (.obj [])
    ∧ load_articles_file .notUtf8 = .raised := by
  refine ⟨rfl, ?_, rfl⟩
  intro h
  exact Json.noConfusion (LoadResult.value.inj h)

/-- **C5 (amended).** `load_articles` returns an empty mapping when the
backing file does not exist, and an empty mapping when the file exists but its
content is not decodable as JSON at all (`json.JSONDecodeError` is caught);
however, content that is valid JSON of any shape — mapping or not — is
returned exactly as parsed, and a file whose bytes are not valid UTF-8 raises
`UnicodeDecodeError`, which propagates to the caller. -/
theorem load_articles_degradation (j : Json) :
    load_articles_file .missing = .value (.obj [])
    ∧ load_articles_file .notJson = .value (.obj [])
    ∧ load_articles_file (.json j) = .value j
    ∧ load_articles_file .notUtf8 = .raised :=
  ⟨rfl, rfl, rfl, rfl⟩

/-- **C4.** `create_article` evaluates its validation checks in exactly this
order — headline non-empty after trimming, preview file present and named,
payload file present and named, preview extension allowed, payload extension
allowed — and returns the message of the first failing check without
evaluating the later checks; the message is a deterministic function of the
input (the outcome is a function of the arguments). -/
theorem create_validation_order (freshId headlineRaw : String)
    (og_file troll_file : Option FileUpload) (fs : FileState) :
    (py_strip headlineRaw = "" →
      (create_article freshId headlineRaw og_file troll_file fs).result =
        .formError "Headline is required.")
    ∧ (py_strip headlineRaw ≠ "" → ¬ filePresent og_file →
      (create_article freshId headlineRaw og_file troll_file fs).result =
        .formError "Preview image is required.")
    ∧ (py_strip headlineRaw ≠ "" → filePresent og_file → ¬ filePresent troll_file →
      (create_article freshId headlineRaw og_file troll_file fs).result =
        .formError "Troll article image is required.")
    ∧ (py_strip headlineRaw ≠ "" → filePresent og_file → filePresent troll_file →
       allowed_file (fileNameOf og_file) = false →
      (create_article freshId headlineRaw og_file troll_file fs).result =
        .formError "Preview image must be PNG, JPG, JPEG, GIF, or WEBP.")
    ∧ (py_strip headlineRaw ≠ "" → filePresent og_file → filePresent troll_file →
       allowed_file (fileNameOf og_file) = true →
       allowed_file (fileNameOf troll_file) = false →
      (create_article freshId headlineRaw og_file troll_file fs).result =
        .formError "Troll image must be PNG, JPG, JPEG, GIF, or WEBP.") := by
  refine ⟨?_, ?_, ?_, ?_, ?_⟩
  · intro h
    simp [create_article, h]
  · intro hh hog
    cases og_file with
    | none => simp [create_article, hh]
    | some og =>
      simp only [filePresent, ne_eq, not_not] at hog
      simp [create_article, hh, hog]
  · intro hh hog htr
    cases og_file with
    | none => exact absurd hog (by simp [filePresent])
    | some og =>
      simp only [filePresent, ne_eq] at hog
      cases troll_file with
      | none => simp [create_article, hh, hog]
      | some troll =>
        simp only [filePresent, ne_eq, not_not] at htr
        simp [create_article, hh, hog, htr]
  · intro hh hog htr hao
    cases og_file with
    | none => exact absurd hog (by simp [filePresent])
    | some og =>
      cases troll_file with
      | none => exact absurd htr (by simp [filePresent])
      | some troll =>
        simp only [filePresent, ne_eq] at hog htr
        simp only [fileNameOf] at hao
        simp [create_article, hh, hog, htr, hao]
  · intro hh hog htr hao hat
    cases og_file with
    | none => exact absurd hog (by simp [filePresent])
    | some og =>
      cases troll_file with
      | none => exact absurd htr (by simp [filePresent])
      | some troll =>
        simp only [filePresent, ne_eq] at hog htr
        simp only [fileNameOf] at hao hat
        simp [create_article, hh, hog, htr, hao, hat]

/-- Witness for C4: each of the five validation outcomes is realized at a
concrete malformed input, in particular the short-circuit cases where a later
check would also fail. -/
theorem create_validation_order_witness :
    (create_article "id0" "   " none none .missing).result =
        .formError "Headline is required."
    ∧ (create_article "id0" "h" none none .missing).result =
        .formError "Preview image is required."
    ∧ (create_article "id0" "h" (some ⟨"a.png", none, []⟩) none .missing).result =
        .formError "Troll article image is required."
    ∧ (create_article "id0" "h" (some ⟨"a.txt", none, []⟩)
        (some ⟨"b.txt", none, []⟩) .missing).result =
        .formError "Preview image must be PNG, JPG, JPEG, GIF, or WEBP."
    ∧ (create_article "id0" "h" (some ⟨"a.png", none, []⟩)
        (some ⟨"b.txt", none, []⟩) .missing).result =
        .formError "Troll image must be PNG, JPG, JPEG, GIF, or WEBP." := by
  refine ⟨?_, ?_, ?_, ?_, ?_⟩
  · exact (create_validation_order "id0" "   " none none .missing).1 (by decide)
  · exact (create_validation_order "id0" "h" none none .missing).2.1
      (by decide) (by simp [filePresent])
  · exact (create_validation_order "id0" "h" (some ⟨"a.png", none, []⟩) none
      .missing).2.2.1 (by decide) (by simp [filePresent]) (by simp [filePresent])
  · exact (create_validation_order "id0" "h" (some ⟨"a.txt", none, []⟩)
      (some ⟨"b.txt", none, []⟩) .missing).2.2.2.1 (by decide)
      (by simp [filePresent]) (by simp [filePresent]) (by decide)
  · exact (create_validation_order "id0" "h" (some ⟨"a.png", none, []⟩)
      (some ⟨"b.txt", none, []⟩) .missing).2.2.2.2 (by decide)
      (by simp [filePresent]) (by simp [filePresent]) (by decide) (by decide)

/-- **C3.** Whenever any validation check fails (empty or whitespace-only
headline, missing or unnamed file, or disallowed file extension),
`create_article` returns an error message, performs no upload of either file,
and writes nothing to the store file. -/
theorem create_validation_failure_no_effects (freshId headlineRaw : String)
    (og_file troll_file : Option FileUpload) (fs : FileState)
    (hfail : py_strip headlineRaw = "" ∨ ¬ filePresent og_file ∨
      ¬ filePresent troll_file ∨ allowed_file (fileNameOf og_file) = false ∨
      allowed_file (fileNameOf troll_file) = false) :
    (∃ msg, (create_article freshId headlineRaw og_file troll_file fs).result =
      .formError msg)
    ∧ (create_article freshId headlineRaw og_file troll_file fs).uploads = []
    ∧ (create_article freshId headlineRaw og_file troll_file fs).saved = none := by
  by_cases hh : py_strip headlineRaw = ""
  · refine ⟨⟨"Headline is required.", ?_⟩, ?_, ?_⟩ <;> simp [create_article, hh]
  · cases og_file with
    | none =>
      refine ⟨⟨"Preview image is required.", ?_⟩, ?_, ?_⟩ <;> simp [create_article, hh]
    | some og =>
      by_cases hog : og.filename = ""
      · refine ⟨⟨"Preview image is required.", ?_⟩, ?_, ?_⟩ <;>
          simp [create_article, hh, hog]
      · cases troll_file with
        | none =>
          refine ⟨⟨"Troll article image is required.", ?_⟩, ?_, ?_⟩ <;>
            simp [create_article, hh, hog]
        | some troll =>
          by_cases htr : troll.filename = ""
          · refine ⟨⟨"Troll article image is required.", ?_⟩, ?_, ?_⟩ <;>
              simp [create_article, hh, hog, htr]
          · cases hao : allowed_file og.filename with
            | false =>
              refine ⟨⟨"Preview image must be PNG, JPG, JPEG, GIF, or WEBP.", ?_⟩,
                ?_, ?_⟩ <;> simp [create_article, hh, hog, htr, hao]
            | true =>
              cases hat : allowed_file troll.filename with
              | false =>
                refine ⟨⟨"Troll image must be PNG, JPG, JPEG, GIF, or WEBP.", ?_⟩,
                  ?_, ?_⟩ <;> simp [create_article, hh, hog, htr, hao, hat]
              | true =>
                exfalso
                rcases hfail with h | h | h | h | h
                · exact hh h
                · exact h (by simp [filePresent, hog])
                · exact h (by simp [filePresent, htr])
                · simp [fileNameOf, hao] at h
                · simp [fileNameOf, hat] at h

/-- Witness for C3: a concrete input whose payload extension is disallowed
produces an error, no upload and no store write. -/
theorem create_validation_failure_no_effects_witness :
    (∃ msg, (create_article "id0" "Hi" (some ⟨"a.png", none, []⟩)
      (some ⟨"b.bmp", none, []⟩) .missing).result = .formError msg)
    ∧ (create_article "id0" "Hi" (some ⟨"a.png", none, []⟩)
        (some ⟨"b.bmp", none, []⟩) .missing).uploads = []
    ∧ (create_article "id0" "Hi" (some ⟨"a.png", none, []⟩)
        (some ⟨"b.bmp", none, []⟩) .missing).saved = none :=
  create_validation_failure_no_effects "id0" "Hi" (some ⟨"a.png", none, []⟩)
    (some ⟨"b.bmp", none, []⟩) .missing
    (Or.inr (Or.inr (Or.inr (Or.inr (by decide)))))

/-- **C8.** A filename passes `allowed_file` iff it contains a `'.'` and the
segment after its final `'.'` (the part `b` of a decomposition
`a ++ '.' :: b` with no `'.'` in `b`), lowercased, is one of `png`, `jpg`,
`jpeg`, `gif`, `webp`; in particular a filename with no dot is rejected, and
matching is case-insensitive and purely suffix-based on the final
dot-delimited segment. -/
theorem allowed_file_characterization (f : String) :
    allowed_file f = true ↔
      ∃ a b : List Char, f.data = a ++ '.' :: b ∧ '.' ∉ b ∧
        py_lower (String.mk b) ∈ (["png", "jpg", "jpeg", "gif", "webp"] : List String) := by
  constructor
  · intro h
    rw [allowed_file] at h
    split at h
    · rename_i hdot
      rcases afterLastDot_split hdot with ⟨a, heq, hnot⟩
      exact ⟨a, afterLastDot f.data, heq, hnot, of_decide_eq_true h⟩
    · exact absurd h (by simp)
  · rintro ⟨a, b, heq, hnb, hmem⟩
    have hdot : '.' ∈ f.data := by rw [heq]; simp
    have hafter : afterLastDot f.data = b := by
      rw [heq, afterLastDot, List.reverse_append, List.reverse_cons, List.append_assoc,
        List.singleton_append]
      rw [takeWhile_append_first_fail b.reverse '.' a.reverse
        (fun x hx => by
          simp only [bne_iff_ne, ne_eq, decide_eq_true_eq]
          intro hx'
          exact hnb (by simpa [hx'] using List.mem_reverse.mp hx))
        (by simp)]
      exact b.reverse_reverse
    rw [allowed_file, if_pos hdot]
    exact decide_eq_true (by rw [lower_ext, hafter]; exact hmem)

/-- **C2.** On a successful create with allocated identifier `freshId`, the two
storage keys are derived deterministically from the id, the role, and the
lowercased final extension of each uploaded filename: the preview asset key is
`articles/<id>_og.<ext>` and the payload asset key is
`articles/<id>_troll.<ext>`, these are the keys the two uploads are performed
under, and these are the keys persisted in the stored record. -/
theorem create_key_derivation (freshId headlineRaw : String) (og troll : FileUpload)
    (fs : FileState) (hh : py_strip headlineRaw ≠ "") (hog : og.filename ≠ "")
    (htr : troll.filename ≠ "") (hao : allowed_file og.filename = true)
    (hat : allowed_file troll.filename = true) :
    ∃ S' rec,
      (create_article freshId headlineRaw (some og) (some troll) fs).saved = some S'
      ∧ (create_article freshId headlineRaw (some og) (some troll) fs).uploads.map
          UploadCall.key =
          ["articles/" ++ freshId ++ "_og." ++ lower_ext og.filename,
           "articles/" ++ freshId ++ "_troll." ++ lower_ext troll.filename]
      ∧ S'.lookup freshId = some rec
      ∧ rec.lookup "og_key" =
          some ("articles/" ++ freshId ++ "_og." ++ lower_ext og.filename)
      ∧ rec.lookup "troll_key" =
          some ("articles/" ++ freshId ++ "_troll." ++ lower_ext troll.filename) := by
  have hout := create_article_success freshId headlineRaw og troll fs hh hog htr hao hat
  refine ⟨dictSet (load_articles fs) freshId
      [("id", freshId), ("headline", py_strip headlineRaw),
       ("og_key", "articles/" ++ freshId ++ "_og." ++ lower_ext og.filename),
       ("troll_key", "articles/" ++ freshId ++ "_troll." ++ lower_ext troll.filename)],
    [("id", freshId), ("headline", py_strip headlineRaw),
     ("og_key", "articles/" ++ freshId ++ "_og." ++ lower_ext og.filename),
     ("troll_key", "articles/" ++ freshId ++ "_troll." ++ lower_ext troll.filename)],
    ?_, ?_, ?_, ?_, ?_⟩
  · rw [hout]
  · rw [hout]
    rfl
  · exact lookup_dictSet_self _ _ _
  · rfl
  · rfl

/-- Witness for C2 at a concrete valid input. -/
theorem create_key_derivation_witness :
    ∃ S' rec,
      (create_article "ab12cd34ef" "Big News" (some ⟨"a.PNG", some "image/png", [1]⟩)
        (some ⟨"b.jpg", none, [2]⟩) .missing).saved = some S'
      ∧ (create_article "ab12cd34ef" "Big News" (some ⟨"a.PNG", some "image/png", [1]⟩)
          (some ⟨"b.jpg", none, [2]⟩) .missing).uploads.map UploadCall.key =
          ["articles/" ++ "ab12cd34ef" ++ "_og." ++ lower_ext "a.PNG",
           "articles/" ++ "ab12cd34ef" ++ "_troll." ++ lower_ext "b.jpg"]
      ∧ S'.lookup "ab12cd34ef" = some rec
      ∧ rec.lookup "og_key" =
          some ("articles/" ++ "ab12cd34ef" ++ "_og." ++ lower_ext "a.PNG")
      ∧ rec.lookup "troll_key" =
          some ("articles/" ++ "ab12cd34ef" ++ "_troll." ++ lower_ext "b.jpg") :=
  create_key_derivation "ab12cd34ef" "Big News" ⟨"a.PNG", some "image/png", [1]⟩
    ⟨"b.jpg", none, [2]⟩ .missing (by decide) (by decide) (by decide)
    (by decide) (by decide)

/-- **C1.** For every valid create input (non-empty trimmed headline, both
files present with allowed extensions), `create_article` redirects to the
allocated id, and `view_article` on that id over the saved store yields a
record whose headline matches the (trimmed) input headline and whose two
resolved URLs are non-empty and distinct from each other. -/
theorem create_then_view_roundtrip (publicBase freshId headlineRaw : String)
    (og troll : FileUpload) (fs : FileState) (hh : py_strip headlineRaw ≠ "")
    (hog : og.filename ≠ "") (htr : troll.filename ≠ "")
    (hao : allowed_file og.filename = true) (hat : allowed_file troll.filename = true) :
    ∃ S' rec og_url troll_url,
      (create_article freshId headlineRaw (some og) (some troll) fs).result =
        .redirect freshId
      ∧ (create_article freshId headlineRaw (some og) (some troll) fs).saved = some S'
      ∧ view_article publicBase freshId (.parsed S') = .page rec og_url troll_url
      ∧ rec.lookup "headline" = some (py_strip headlineRaw)
      ∧ og_url ≠ "" ∧ troll_url ≠ "" ∧ og_url ≠ troll_url := by
  have hout := create_article_success freshId headlineRaw og troll fs hh hog htr hao hat
  refine ⟨dictSet (load_articles fs) freshId
      [("id", freshId), ("headline", py_strip headlineRaw),
       ("og_key", "articles/" ++ freshId ++ "_og." ++ lower_ext og.filename),
       ("troll_key", "articles/" ++ freshId ++ "_troll." ++ lower_ext troll.filename)],
    [("id", freshId), ("headline", py_strip headlineRaw),
     ("og_key", "articles/" ++ freshId ++ "_og." ++ lower_ext og.filename),
     ("troll_key", "articles/" ++ freshId ++ "_troll." ++ lower_ext troll.filename)],
    r2_url_for publicBase ("articles/" ++ freshId ++ "_og." ++ lower_ext og.filename),
    r2_url_for publicBase
      ("articles/" ++ freshId ++ "_troll." ++ lower_ext troll.filename),
    ?_, ?_, ?_, ?_, ?_, ?_, ?_⟩
  · rw [hout]
  · rw [hout]
  · exact view_article_parsed_found (lookup_dictSet_self _ _ _)
      (List.cons_ne_nil _ _) publicBase
  · rfl
  · exact r2_url_for_ne_empty _ _
  · exact r2_url_for_ne_empty _ _
  · exact og_troll_urls_ne publicBase freshId (lower_ext og.filename)
      (lower_ext troll.filename)

/-- Witness for C1 at a concrete valid input. -/
theorem create_then_view_roundtrip_witness :
    ∃ S' rec og_url troll_url,
      (create_article "3f9a2b7c1d" "Big News" (some ⟨"a.png", none, [1]⟩)
        (some ⟨"b.jpg", none, [2]⟩) .missing).result = .redirect "3f9a2b7c1d"
      ∧ (create_article "3f9a2b7c1d" "Big News" (some ⟨"a.png", none, [1]⟩)
          (some ⟨"b.jpg", none, [2]⟩) .missing).saved = some S'
      ∧ view_article "https://pub.example" "3f9a2b7c1d" (.parsed S') =
          .page rec og_url troll_url
      ∧ rec.lookup "headline" = some (py_strip "Big News")
      ∧ og_url ≠ "" ∧ troll_url ≠ "" ∧ og_url ≠ troll_url :=
  create_then_view_roundtrip "https://pub.example" "3f9a2b7c1d" "Big News"
    ⟨"a.png", none, [1]⟩ ⟨"b.jpg", none, [2]⟩ .missing (by decide) (by decide)
    (by decide) (by decide) (by decide)

/-- **C10.** For every successful create, the headline stored in the persisted
record equals the submitted headline with leading and trailing whitespace
removed; when the raw headline carries surrounding whitespace the stored value
therefore differs from the raw input. -/
theorem create_stores_trimmed_headline (freshId headlineRaw : String)
    (og troll : FileUpload) (fs : FileState) (hh : py_strip headlineRaw ≠ "")
    (hog : og.filename ≠ "") (htr : troll.filename ≠ "")
    (hao : allowed_file og.filename = true) (hat : allowed_file troll.filename = true) :
    ∃ S' rec,
      (create_article freshId headlineRaw (some og) (some troll) fs).saved = some S'
      ∧ S'.lookup freshId = some rec
      ∧ rec.lookup "headline" = some (py_strip headlineRaw)
      ∧ (py_strip headlineRaw ≠ headlineRaw →
          rec.lookup "headline" ≠ some headlineRaw) := by
  have hout := create_article_success freshId headlineRaw og troll fs hh hog htr hao hat
  refine ⟨dictSet (load_articles fs) freshId
      [("id", freshId), ("headline", py_strip headlineRaw),
       ("og_key", "articles/" ++ freshId ++ "_og." ++ lower_ext og.filename),
       ("troll_key", "articles/" ++ freshId ++ "_troll." ++ lower_ext troll.filename)],
    [("id", freshId), ("headline", py_strip headlineRaw),
     ("og_key", "articles/" ++ freshId ++ "_og." ++ lower_ext og.filename),
     ("troll_key", "articles/" ++ freshId ++ "_troll." ++ lower_ext troll.filename)],
    ?_, ?_, ?_, ?_⟩
  · rw [hout]
  · exact lookup_dictSet_self _ _ _
  · rfl
  · intro hne hc
    have hc' : some (py_strip headlineRaw) = some headlineRaw := hc
    exact hne (Option.some.inj hc')

/-- Witness for C10: a raw headline with surrounding whitespace is stored
trimmed, hence differs from the raw input. -/
theorem create_stores_trimmed_headline_witness :
    ∃ S' rec,
      (create_article "ff00aa11bb" "  Spaced Out  " (some ⟨"a.gif", none, []⟩)
        (some ⟨"b.webp", none, []⟩) .missing).saved = some S'
      ∧ S'.lookup "ff00aa11bb" = some rec
      ∧ rec.lookup "headline" = some (py_strip "  Spaced Out  ")
      ∧ (py_strip "  Spaced Out  " ≠ "  Spaced Out  " →
          rec.lookup "headline" ≠ some "  Spaced Out  ") :=
  create_stores_trimmed_headline "ff00aa11bb" "  Spaced Out  " ⟨"a.gif", none, []⟩
    ⟨"b.webp", none, []⟩ .missing (by decide) (by decide) (by decide)
    (by decide) (by decide)

/-- **C7.** For every prior store state readable by `load_articles` and every
successful create whose allocated identifier is not already a key of that
store, the saved store maps every previously bound id to exactly the record it
held before, and additionally maps the new id to the new record. -/
theorem create_preserves_existing_records (freshId headlineRaw : String)
    (og troll : FileUpload) (fs : FileState) (hh : py_strip headlineRaw ≠ "")
    (hog : og.filename ≠ "") (htr : troll.filename ≠ "")
    (hao : allowed_file og.filename = true) (hat : allowed_file troll.filename = true)
    (hfresh : (load_articles fs).lookup freshId = none) :
    ∃ S',
      (create_article freshId headlineRaw (some og) (some troll) fs).saved = some S'
      ∧ (∀ k r0, (load_articles fs).lookup k = some r0 → S'.lookup k = some r0)
      ∧ S'.lookup freshId = some
          [("id", freshId), ("headline", py_strip headlineRaw),
           ("og_key", "articles/" ++ freshId ++ "_og." ++ lower_ext og.filename),
           ("troll_key",
             "articles/" ++ freshId ++ "_troll." ++ lower_ext troll.filename)] := by
  have hout := create_article_success freshId headlineRaw og troll fs hh hog htr hao hat
  refine ⟨dictSet (load_articles fs) freshId
      [("id", freshId), ("headline", py_strip headlineRaw),
       ("og_key", "articles/" ++ freshId ++ "_og." ++ lower_ext og.filename),
       ("troll_key", "articles/" ++ freshId ++ "_troll." ++ lower_ext troll.filename)],
    ?_, ?_, ?_⟩
  · rw [hout]
  · intro k r0 hk
    have hns : ¬ ((load_articles fs).lookup freshId).isSome = true := by
      rw [hfresh]
      simp
    rw [dictSet, if_neg hns]
    exact lookup_append_of_some hk _
  · exact lookup_dictSet_self _ _ _

/-- Witness for C7: creating over a one-record store keeps the old record and
adds the new one. -/
theorem create_preserves_existing_records_witness :
    ∃ S',
      (create_article "1234567890" "Hi" (some ⟨"a.png", none, []⟩)
        (some ⟨"b.png", none, []⟩)
        (.parsed [("old1234567", [("id", "old1234567"), ("headline", "old")])])).saved =
        some S'
      ∧ (∀ k r0,
          (load_articles
            (.parsed [("old1234567", [("id", "old1234567"), ("headline", "old")])])).lookup
              k = some r0 → S'.lookup k = some r0)
      ∧ S'.lookup "1234567890" = some
          [("id", "1234567890"), ("headline", py_strip "Hi"),
           ("og_key", "articles/" ++ "1234567890" ++ "_og." ++ lower_ext "a.png"),
           ("troll_key",
             "articles/" ++ "1234567890" ++ "_troll." ++ lower_ext "b.png")] :=
  create_preserves_existing_records "1234567890" "Hi" ⟨"a.png", none, []⟩
    ⟨"b.png", none, []⟩
    (.parsed [("old1234567", [("id", "old1234567"), ("headline", "old")])])
    (by decide) (by decide) (by decide) (by decide) (by decide) (by decide)

/-- Counterexample for C6 as originally stated: the empty record `{}` lacks
both current-scheme keys, but `view_article` rejects it with 404 through the
`if not article` dict-truthiness guard instead of returning a page with empty
URLs. -/
theorem view_empty_record_counterexample :
    view_article "https://pub.example" "empty00001"
      (.parsed [("empty00001", [])]) = .notFound
    ∧ view_article "https://pub.example" "empty00001"
      (.parsed [("empty00001", [])]) ≠ .page [] "" "" := by
  refine ⟨rfl, ?_⟩
  intro h
  exact ViewResult.noConfusion h

/-- **C6 (amended).** For every stored non-empty record that lacks both
current-scheme keys (legacy shape, e.g. legacy filename fields instead of
`og_key`/`troll_key`), `view_article` on that record's id returns the page
with both the preview URL and the payload URL equal to the empty string,
without failing; the entirely empty record is instead rejected with 404 by
the `if not article` truthiness guard. -/
theorem view_legacy_record_empty_urls (publicBase article_id : String) (S : Store)
    (rec : ArticleRecord) (hl : S.lookup article_id = some rec) (hne : rec ≠ [])
    (hog : rec.lookup "og_key" = none) (htr : rec.lookup "troll_key" = none) :
    view_article publicBase article_id (.parsed S) = .page rec "" "" := by
  rw [view_article_parsed_found hl hne publicBase, hog, htr]

/-- Witness for C6 on a concrete legacy record carrying filename fields. -/
theorem view_legacy_record_empty_urls_witness :
    view_article "https://pub.example" "legacy0001"
      (.parsed [("legacy0001",
        [("id", "legacy0001"), ("headline", "Old One"),
         ("og_filename", "a.png"), ("troll_filename", "b.png")])]) =
      .page [("id", "legacy0001"), ("headline", "Old One"),
        ("og_filename", "a.png"), ("troll_filename", "b.png")] "" "" :=
  view_legacy_record_empty_urls "https://pub.example" "legacy0001"
    [("legacy0001",
      [("id", "legacy0001"), ("headline", "Old One"),
       ("og_filename", "a.png"), ("troll_filename", "b.png")])]
    [("id", "legacy0001"), ("headline", "Old One"),
     ("og_filename", "a.png"), ("troll_filename", "b.png")]
    (by decide) (by decide) (by decide) (by decide)

/-- **C9.** For every stored record that contains exactly one of the two
current-scheme keys, `view_article` resolves both URLs to the empty string —
including the URL for the key that is present — because the current-scheme
branch requires both keys. -/
theorem view_partial_keys_empty_urls (publicBase article_id : String) (S : Store)
    (rec : ArticleRecord) (hl : S.lookup article_id = some rec)
    (h : ((rec.lookup "og_key").isSome ∧ rec.lookup "troll_key" = none) ∨
         (rec.lookup "og_key" = none ∧ (rec.lookup "troll_key").isSome)) :
    view_article publicBase article_id (.parsed S) = .page rec "" "" := by
  have hne : rec ≠ [] := by
    rintro rfl
    rcases h with ⟨h1, _⟩ | ⟨_, h2⟩
    · simp at h1
    · simp at h2
  rw [view_article_parsed_found hl hne publicBase]
  rcases h with ⟨h1, h2⟩ | ⟨h1, h2⟩
  · rcases Option.isSome_iff_exists.mp h1 with ⟨v, hv⟩
    rw [hv, h2]
  · rw [h1]

/-- Witness for C9: one record with only `og_key`, one with only `troll_key`;
both resolve to empty URLs. -/
theorem view_partial_keys_empty_urls_witness :
    view_article "https://pub.example" "onlyog0001"
      (.parsed [("onlyog0001",
        [("id", "onlyog0001"), ("og_key", "articles/onlyog0001_og.png")])]) =
      .page [("id", "onlyog0001"), ("og_key", "articles/onlyog0001_og.png")] "" ""
    ∧ view_article "https://pub.example" "onlytr0001"
      (.parsed [("onlytr0001",
        [("id", "onlytr0001"), ("troll_key", "articles/onlytr0001_troll.png")])]) =
      .page [("id", "onlytr0001"),
        ("troll_key", "articles/onlytr0001_troll.png")] "" "" :=
  ⟨view_partial_keys_empty_urls "https://pub.example" "onlyog0001"
      [("onlyog0001", [("id", "onlyog0001"), ("og_key", "articles/onlyog0001_og.png")])]
      [("id", "onlyog0001"), ("og_key", "articles/onlyog0001_og.png")]
      (by decide) (Or.inl (by decide)),
    view_partial_keys_empty_urls "https://pub.example" "onlytr0001"
      [("onlytr0001",
        [("id", "onlytr0001"), ("troll_key", "articles/onlytr0001_troll.png")])]
      [("id", "onlytr0001"), ("troll_key", "articles/onlytr0001_troll.png")]
      (by decide) (Or.inr (by decide))⟩

end UnionHeraldPress
